import Mathlib

/-
  Verification of the ASTERBLAST AI proxy server (ai-server.js).

  The file shallowly embeds the Express request handlers of the proxy:
  pure data is modelled directly, the single piece of mutable state
  (the process-wide `currentModel` variable) is threaded explicitly as a
  `ServerState`, and the outcome of each upstream axios call is an input
  to the handler (an `UpstreamResult` oracle).  Error payload bodies of
  the upstream service are abstracted to their HTTP status code, which is
  all the handlers inspect.  `localeCompare` is modelled as code-point
  lexicographic order on strings.
-/

namespace AsterBlast

/-- JS `String.prototype.includes`: `pat` occurs as a contiguous substring. -/
def charsContains (pat : List Char) : List Char → Bool
  | [] => pat.isEmpty
  | c :: cs => List.isPrefixOf pat (c :: cs) || charsContains pat cs

/-- `strContains s pat` models `s.includes(pat)` in JS. -/
def strContains (s pat : String) : Bool :=
  charsContains pat.data s.data

/-- JS `s.toLowerCase()`, modelled characterwise. -/
def strToLower (s : String) : String :=
  String.mk (s.data.map Char.toLower)

/-- JS `s.trim()`: drop surrounding whitespace. -/
def strTrim (s : String) : String :=
  String.mk (((s.data.dropWhile Char.isWhitespace).reverse.dropWhile
    Char.isWhitespace).reverse)

/-- JS truthiness of a string-valued field that may be absent:
`undefined` and the empty string are falsy. -/
def jsTruthy (s : Option String) : Bool :=
  !((s.getD "") == "")

/-- JS `a || b` where `a` is a string or `undefined`. -/
def jsOrElse (a : Option String) (b : String) : String :=
  match a with
  | some s => if s == "" then b else s
  | none => b

/-- Outcome of one upstream axios call, as observed by a handler:
a 2xx response carrying the extracted candidate text
(`response.data?.candidates?.[0]?.content?.parts?.[0]?.text`, which may be
absent), a non-2xx HTTP error carrying `error.response.status`, or a
network/timeout error with no response object. -/
inductive UpstreamResult where
  | ok (text : Option String)
  | httpError (status : Nat)
  | netError
deriving DecidableEq

/-- The text extracted from the upstream response, when any. -/
def extractText : UpstreamResult → Option String
  | .ok t => t
  | _ => none

/-- The upstream call produced a truthy (non-empty) text. -/
def hasNonEmptyText (u : UpstreamResult) : Bool :=
  jsTruthy (extractText u)

/-- The axios call resolved (HTTP 2xx), i.e. control stays in the `try` block. -/
def upstreamOk : UpstreamResult → Bool
  | .ok _ => true
  | _ => false

/-- Process-wide mutable state: `let currentModel = 'gemini-2.5-flash'`. -/
structure ServerState where
  currentModel : String
deriving DecidableEq

/-- State at process start. -/
def initialState : ServerState := { currentModel := "gemini-2.5-flash" }

/-- The observable parts of a handler's HTTP reply: the status code and the
JSON fields the claims talk about.  Fields a handler does not set are `none`. -/
structure ApiResponse where
  status : Nat := 200
  success : Option Bool := none
  responseText : Option String := none
  model : Option String := none
  asteroid : Option String := none
  triedModels : Option (List String) := none
deriving DecidableEq

/-- Canned fallback text of the asteroid/neo bucket in `/chat`. -/
def asteroidFallbackText : String :=
  "While I\x27m syncing with the deep space network, here\x27s asteroid info from our local database: We track thousands of near-Earth objects. Most are small and pose no threat, but we monitor all closely. Check our Tracking page for real-time data! ğŸš€"

/-- Canned fallback text of the mars/planet bucket in `/chat`. -/
def marsFallbackText : String :=
  "The Mars connection has some static! Here\x27s what I know: Mars is the 4th planet, has two moons, and is a prime target for exploration. Our 3D visualization shows its current position relative to Earth. ğŸ”´"

/-- Canned fallback text of the moon/lunar bucket in `/chat`. -/
def moonFallbackText : String :=
  "Lunar signal weak! Quick facts: Our Moon is Earth\x27s only natural satellite, about 1/4 Earth\x27s diameter. It heavily influences tides and is crucial for future space exploration. ğŸŒ•"

/-- Canned fallback text of the star/galaxy bucket in `/chat`. -/
def starFallbackText : String :=
  "Stellar interference detected! Stars are massive balls of plasma, galaxies contain billions of them. Our Milky Way has 100-400 billion stars. The observatory can simulate star fields in the 3D view! âœ¨"

/-- Canned fallback text of the risk/danger bucket in `/chat`. -/
def riskFallbackText : String :=
  "Risk assessment systems nominal. We use multiple factors: distance, size, velocity, orbit. Most asteroids have minimal risk. Try our Risk Analyzer tool for detailed simulations! âš ï¸"

/-- Generic fallback text of `/chat` when no keyword matches. -/
def genericFallbackText : String :=
  "Cosmic AI here! I\x27m experiencing some interstellar static. The Stellar Observatory platform is fully operational with asteroid tracking, risk analysis, and 3D visualization. What would you like to explore? ğŸ›°ï¸"

/-- The fixed reply text of the `/chat` 429 branch. -/
def rateLimitText : String :=
  "ğŸŒŒ The cosmic bandwidth is saturated right now (rate limit reached). Our telescopes are still collecting data - try again in a moment!"

/-- The `if/else` keyword chain selecting a canned `/chat` fallback from the
lowercased user message (ai-server.js lines 318-333). -/
def chatFallbackResponse (message : String) : String :=
  let userMessage := strToLower message
  if strContains userMessage "asteroid" || strContains userMessage "neo" then
    asteroidFallbackText
  else if strContains userMessage "mars" || strContains userMessage "planet" then
    marsFallbackText
  else if strContains userMessage "moon" || strContains userMessage "lunar" then
    moonFallbackText
  else if strContains userMessage "star" || strContains userMessage "galaxy" then
    starFallbackText
  else if strContains userMessage "risk" || strContains userMessage "danger" then
    riskFallbackText
  else
    genericFallbackText

/-- The fallback model list of the `/chat` 404 branch. -/
def chatFallbackModels : List String :=
  ["gemini-2.0-flash", "gemini-pro-latest", "gemini-exp-1206"]

/-- The `/chat` 404 branch: scan `chatFallbackModels` and switch to the first
entry different from the current model (the loop breaks on the first write). -/
def advanceModel (cur : String) : String :=
  (chatFallbackModels.find? (fun m => m != cur)).getD cur

/-- The `POST /chat` handler (ai-server.js lines 193-345).
Inputs: the current state, the optional `message` body field, and the outcome
of the single upstream call.  Returns the new state and the HTTP reply. -/
def chatHandler (st : ServerState) (message : Option String) (up : UpstreamResult) :
    ServerState × ApiResponse :=
  if jsTruthy message then
    match up with
    | .ok t =>
      if jsTruthy t then
        (st, { status := 200, success := some true, responseText := t,
               model := some st.currentModel })
      else
        -- `throw new Error('AI returned empty response')`: caught below with
        -- no `error.response`, so neither the 429 nor the 404 branch fires.
        (st, { status := 200, success := some false,
               responseText := some (chatFallbackResponse (message.getD "")),
               model := some st.currentModel })
    | .httpError s =>
      if s == 429 then
        (st, { status := 429, success := some false,
               responseText := some rateLimitText,
               model := some st.currentModel })
      else if s == 404 then
        let st' : ServerState := { currentModel := advanceModel st.currentModel }
        (st', { status := 200, success := some false,
                responseText := some (chatFallbackResponse (message.getD "")),
                model := some st'.currentModel })
      else
        (st, { status := 200, success := some false,
               responseText := some (chatFallbackResponse (message.getD "")),
               model := some st.currentModel })
    | .netError =>
      (st, { status := 200, success := some false,
             responseText := some (chatFallbackResponse (message.getD "")),
             model := some st.currentModel })
  else
    (st, { status := 400 })

/-- Reply text of `/asteroid-info` when the name field is missing. -/
def missingAsteroidPrompt : String :=
  "Please specify which asteroid you\x27re curious about! Try: Bennu, Apophis, Ceres, Eros, or Itokawa."

/-- Fact sheet stored under key `bennu`. -/
def bennuFact : String :=
  "**101955 Bennu** ğŸª\nâ€¢ Discovered: 1999\nâ€¢ Size: ~500m diameter\nâ€¢ Type: Carbonaceous (primitive)\nâ€¢ Mission: NASA OSIRIS-REx (sample return 2023)\nâ€¢ Risk: 1-in-2,700 chance of impact in 2182\nâ€¢ Fun fact: One of most potentially hazardous asteroids known"

/-- Fact sheet stored under key `apophis`. -/
def apophisFact : String :=
  "**99942 Apophis** âš ï¸\nâ€¢ Discovered: 2004\nâ€¢ Size: ~370m diameter\nâ€¢ Fame: Caused concern with initial 2.7% impact probability for 2029\nâ€¢ Update: Will safely pass Earth at ~31,000km on April 13, 2029\nâ€¢ Visible: Will be naked-eye visible during 2029 flyby"

/-- Fact sheet stored under key `ceres`. -/
def ceresFact : String :=
  "**1 Ceres** ğŸŒ\nâ€¢ Largest object in asteroid belt (940km)\nâ€¢ Status: Dwarf planet (since 2006)\nâ€¢ Composition: Rock/ice, possible subsurface ocean\nâ€¢ Mission: NASA Dawn orbiter (2015-2018)\nâ€¢ Significance: Contains 25% of asteroid belt\x27s mass"

/-- Fact sheet stored under key `eros`. -/
def erosFact : String :=
  "**433 Eros** ğŸ’«\nâ€¢ First NEO discovered (1898)\nâ€¢ Size: 33Ã—13Ã—13 km (potato-shaped!)\nâ€¢ Mission: NEAR Shoemaker orbited & landed (2000-2001)\nâ€¢ Orbit: Brings it within 0.15 AU of Earth\nâ€¢ Type: S-type (stony)"

/-- Fact sheet stored under key `itokawa`. -/
def itokawaFact : String :=
  "**25143 Itokawa** ğŸš€\nâ€¢ Size: 535Ã—294Ã—209m\nâ€¢ Mission: JAXA Hayabusa (first asteroid sample return, 2010)\nâ€¢ Type: Rubble pile (loose collection of rocks)\nâ€¢ Shape: Looks like a sea otter!\nâ€¢ Samples: ~1,500 grains returned to Earth"

/-- The static asteroid fact catalog of `/asteroid-info` (keys lowercase). -/
def asteroidDatabase : List (String × String) :=
  [("bennu", bennuFact), ("apophis", apophisFact), ("ceres", ceresFact),
   ("eros", erosFact), ("itokawa", itokawaFact)]

/-- The under-analysis template for names absent from the catalog; it embeds
the original, unmodified input. -/
def underAnalysisText (name : String) : String :=
  "Asteroid **" ++ name ++ "** is being analyzed by our deep space telescopes. While we await spectral data, here\x27s what we know: Most asteroids orbit between Mars and Jupiter, but Near-Earth Objects like this require careful tracking for planetary defense."

/-- The `POST /asteroid-info` handler (ai-server.js lines 360-439).
On any 2xx upstream outcome the extracted text is returned under
`success:true` without an emptiness check; on a thrown error the catalog is
consulted with the lowercased, trimmed name. -/
def asteroidInfoHandler (st : ServerState) (asteroidName : Option String)
    (up : UpstreamResult) : ServerState × ApiResponse :=
  if jsTruthy asteroidName then
    let n := asteroidName.getD ""
    match up with
    | .ok t =>
      (st, { status := 200, success := some true, responseText := t,
             asteroid := some n, model := some st.currentModel })
    | _ =>
      let lowerName := strTrim (strToLower n)
      let fallback := jsOrElse (asteroidDatabase.lookup lowerName) (underAnalysisText n)
      (st, { status := 200, success := some false, responseText := some fallback,
             asteroid := some n, model := some st.currentModel })
  else
    (st, { status := 200, success := some false,
           responseText := some missingAsteroidPrompt })

/-- The fallback model list of `/test-gemini`. -/
def testFallbackModels : List String :=
  ["gemini-2.0-flash", "gemini-pro-latest", "gemini-exp-1206", "gemini-2.0-flash-001"]

/-- The `GET /test-gemini` handler (ai-server.js lines 99-184).
`init` is the outcome of the call with the current model; `fb m` is the
outcome of the probe of fallback model `m`.  The loop stops at the first
fallback whose probe yields truthy text, promoting it to the current model;
if the initial call and every probe fail, the reply is a 500 listing the
tried models. -/
def testGeminiHandler (st : ServerState) (init : UpstreamResult)
    (fb : String → UpstreamResult) : ServerState × ApiResponse :=
  if hasNonEmptyText init then
    (st, { status := 200, success := some true, responseText := extractText init,
           model := some st.currentModel })
  else
    match testFallbackModels.find? (fun m => hasNonEmptyText (fb m)) with
    | some m =>
      ({ currentModel := m },
       { status := 200, success := some true, model := some m })
    | none =>
      (st, { status := 500, success := some false, model := some st.currentModel,
             triedModels := some testFallbackModels })

/-- The `GET /quick-test` handler (ai-server.js lines 471-515).
Both branches answer with `res.json` (status 200) and never touch
`currentModel`; the extracted text is reported without an emptiness check. -/
def quickTestHandler (st : ServerState) (up : UpstreamResult) :
    ServerState × ApiResponse :=
  match up with
  | .ok t =>
    (st, { status := 200, success := some true, responseText := t,
           model := some st.currentModel })
  | _ =>
    (st, { status := 200, success := some false, model := some st.currentModel })

/-- Upstream model metadata as consumed by `GET /models`:
`name` and `supportedGenerationMethods` may be absent. -/
structure ModelDescriptor where
  name : Option String
  displayName : String := ""
  description : String := ""
  supportedGenerationMethods : Option (List String) := none
deriving DecidableEq

/-- The filter of `GET /models` (ai-server.js lines 51-60): a truthy name, a
present methods array containing `generateContent`, and none of the excluded
substrings in the name. -/
def textModelFilter (m : ModelDescriptor) : Bool :=
  jsTruthy m.name &&
  m.supportedGenerationMethods.isSome &&
  (m.supportedGenerationMethods.getD []).contains "generateContent" &&
  !(strContains (m.name.getD "") "embedding") &&
  !(strContains (m.name.getD "") "imagen") &&
  !(strContains (m.name.getD "") "veo") &&
  !(strContains (m.name.getD "") "audio") &&
  !(strContains (m.name.getD "") "tts")

/-- JS `s.replace(pat, '')` for a string pattern: drop the first occurrence. -/
def removeFirstOcc (pat : String) : List Char → List Char
  | [] => []
  | c :: cs =>
    if List.isPrefixOf pat.data (c :: cs) then List.drop pat.data.length (c :: cs)
    else c :: removeFirstOcc pat cs

/-- `model.name.replace('models/', '')`. -/
def stripModelsTag (s : String) : String :=
  String.mk (removeFirstOcc "models/" s.data)

/-- One entry of the `GET /models` reply list. -/
structure TextModel where
  name : String
  displayName : String
  description : String
  supportedMethods : List String
deriving DecidableEq

/-- The map step of `GET /models` (ai-server.js lines 61-66). -/
def mkTextModel (m : ModelDescriptor) : TextModel :=
  { name := stripModelsTag (m.name.getD ""),
    displayName := m.displayName,
    description := m.description,
    supportedMethods := m.supportedGenerationMethods.getD [] }

/-- Code-point lexicographic comparison of character lists; models
`a.localeCompare(b) <= 0` for the plain ASCII model identifiers compared by
the `/models` sort. -/
def charsLe : List Char → List Char → Bool
  | [], _ => true
  | _ :: _, [] => false
  | a :: as, b :: bs =>
    if a.toNat = b.toNat then charsLe as bs else decide (a.toNat < b.toNat)

/-- Lexicographic at-most on strings. -/
def strLe (a b : String) : Bool :=
  charsLe a.data b.data

/-- The sort comparator of `GET /models` (ai-server.js lines 67-72) as an
at-most test: flash models first, ties by lexicographic name. -/
def modelLe (a b : TextModel) : Bool :=
  if strContains a.name "flash" == strContains b.name "flash" then
    strLe a.name b.name
  else
    strContains a.name "flash"

/-- `modelLe` as an ordering relation, for sorting. -/
def ModelRel (a b : TextModel) : Prop :=
  modelLe a b = true

instance : DecidableRel ModelRel := fun a b =>
  inferInstanceAs (Decidable (modelLe a b = true))

/-- The `GET /models` success path: filter, map, sort. -/
def modelsHandler (models : List ModelDescriptor) : List TextModel :=
  List.insertionSort ModelRel ((models.filter textModelFilter).map mkTextModel)

/-- The set of model identifiers the server can ever hold in `currentModel`:
the initial default plus both fallback lists. -/
def knownModels : List String :=
  ["gemini-2.5-flash", "gemini-2.0-flash", "gemini-pro-latest",
   "gemini-exp-1206", "gemini-2.0-flash-001"]

/-- One server step: some request is handled with some inputs and some
upstream outcome, moving the state to the handler's post-state.  Handlers
that never write `currentModel` (`/test`, `/health`, `/echo`, `/models`)
are covered by the stuttering steps of the other handlers. -/
inductive  Step : ServerState → ServerState → Prop where
  | chat (st : ServerState) (msg : Option String) (up : UpstreamResult) :
      Step st (chatHandler st msg up).1
  | asteroidInfo (st : ServerState) (name : Option String) (up : UpstreamResult) :
      Step st (asteroidInfoHandler st name up).1
  | testGemini (st : ServerState) (init : UpstreamResult) (fb : String → UpstreamResult) :
      Step st (testGeminiHandler st init fb).1
  | quickTest (st : ServerState) (up : UpstreamResult) :
      Step st (quickTestHandler st up).1

/-- States reachable from process start by any sequence of requests. -/
def Reachable (s : ServerState) : Prop :=
  Relation.ReflTransGen Step initialState s

/-- The spec-side description of `/chat` fallback selection, for comparison
with `chatFallbackResponse`: a priority-ordered bucket list, matched by
case-insensitive substring search, first match wins. -/
def fallbackBuckets : List (List String × String) :=
  [(["asteroid", "neo"], asteroidFallbackText),
   (["mars", "planet"], marsFallbackText),
   (["moon", "lunar"], moonFallbackText),
   (["star", "galaxy"], starFallbackText),
   (["risk", "danger"], riskFallbackText)]

/-- Modelled from the spec: first bucket whose keyword list has a match. -/
def firstBucket (m : String) : List (List String × String) → Option String
  | [] => none
  | b :: bs => if b.1.any (fun k => strContains m k) then some b.2 else firstBucket m bs

/-- Modelled from the spec: bucket scan with the generic message as default. -/
def bucketFallback (message : String) : String :=
  (firstBucket (strToLower message) fallbackBuckets).getD genericFallbackText

/-! ## Helper lemmas -/

lemma jsTruthy_some_iff (s : String) : jsTruthy (some s) = true ↔ s ≠ "" := by
  simp [jsTruthy]

lemma hasNonEmptyText_ok (t : Option String) :
    hasNonEmptyText (.ok t) = jsTruthy t := rfl

lemma charsContains_of_isPre {pat l : List Char} (h : pat <+: l) :
    charsContains pat l = true := by
  cases l with
  | nil =>
    have hp : pat = [] := List.prefix_nil.mp h
    subst hp
    rfl
  | cons c cs =>
    unfold charsContains
    simp [List.isPrefixOf_iff_prefix.mpr h]

lemma charsContains_append_left (pat l₁ l₂ : List Char)
    (h : charsContains pat l₂ = true) : charsContains pat (l₁ ++ l₂) = true := by
  induction l₁ with
  | nil => simpa using h
  | cons c cs ih => simp [charsContains, ih]

lemma strContains_middle (pre s post : String) :
    strContains (pre ++ s ++ post) s = true := by
  unfold strContains
  have hdata : (pre ++ s ++ post).data = pre.data ++ (s.data ++ post.data) := by
    simp
  rw [hdata]
  exact charsContains_append_left _ _ _
    (charsContains_of_isPre ⟨post.data, rfl⟩)

lemma advanceModel_ne (cur : String) : advanceModel cur ≠ cur := by
  unfold advanceModel
  cases hf : chatFallbackModels.find? (fun x => x != cur) with
  | some x =>
    have hx : x ≠ cur := by simpa using List.find?_some hf
    simpa using hx
  | none =>
    exfalso
    have hall := List.find?_eq_none.mp hf
    have e1 := hall "gemini-2.0-flash" (by simp [chatFallbackModels])
    have e2 := hall "gemini-pro-latest" (by simp [chatFallbackModels])
    simp at e1 e2
    exact absurd (e1.trans e2.symm) (by decide)

lemma advanceModel_mem (cur : String) :
    advanceModel cur ∈ chatFallbackModels ∨ advanceModel cur = cur := by
  unfold advanceModel
  cases hf : chatFallbackModels.find? (fun x => x != cur) with
  | some x => exact Or.inl (by simpa using List.mem_of_find?_eq_some hf)
  | none => exact Or.inr (by simp)

/-! ## C9: quick-test status and state -/

/-- C9: for every `GET /quick-test` request, whatever the upstream outcome,
the HTTP status is 200, the state (ActiveModel) is unchanged, and the
`success` flag reports exactly whether the upstream call resolved (so every
failure is reported as a degraded `success:false` payload, never a hard
error). -/
theorem quickTest_status_and_state (st : ServerState) (up : UpstreamResult) :
    (quickTestHandler st up).2.status = 200 ∧
    (quickTestHandler st up).1 = st ∧
    (quickTestHandler st up).2.success = some (upstreamOk up) := by
  cases up <;> simp [quickTestHandler, upstreamOk]

/-! ## C1: status policy of /chat failures -/

/-- C1 (counterexample): a `/chat` request whose upstream call fails with a
rate-limit condition (status 429) is answered with HTTP status 429, not with
a success-shaped 2xx status as the claim states. -/
theorem chat_rate_limit_status_counterexample :
    (chatHandler initialState (some "hello") (.httpError 429)).2.status = 429 ∧
    ¬ (chatHandler initialState (some "hello") (.httpError 429)).2.status = 200 := by
  constructor
  · rfl
  · decide

/-- C1 (amended): for every `/chat` request with a truthy message whose
upstream call fails, the reply carries `success:false`; its HTTP status is
429 when the failure is a rate-limit condition and 200 otherwise; a missing
or empty message yields status 400. -/
theorem chat_failure_status_policy (st : ServerState) (m : String) (hm : m ≠ "")
    (up : UpstreamResult) (hup : hasNonEmptyText up = false) :
    (chatHandler st (some m) up).2.success = some false ∧
    (chatHandler st (some m) up).2.status =
      (if up = .httpError 429 then 429 else 200) ∧
    (chatHandler st none up).2.status = 400 ∧
    (chatHandler st (some "") up).2.status = 400 := by
  have h1 : jsTruthy (some m) = true := (jsTruthy_some_iff m).mpr hm
  refine ⟨?_, ?_, by simp [chatHandler, jsTruthy], by simp [chatHandler, jsTruthy]⟩ <;>
  · cases up with
    | ok t =>
      have ht : jsTruthy t = false := by simpa [hasNonEmptyText, extractText] using hup
      simp [chatHandler, h1, ht]
    | httpError s =>
      by_cases h429 : s = 429
      · subst h429; simp [chatHandler, h1]
      · by_cases h404 : s = 404
        · subst h404; simp [chatHandler, h1]
        · simp [chatHandler, h1, h429, h404]
    | netError => simp [chatHandler, h1]

/-- Closed instantiation of `chat_failure_status_policy` at a network error
and at a 429 error. -/
theorem chat_failure_status_policy_witness :
    (chatHandler initialState (some "hi") .netError).2.success = some false ∧
    (chatHandler initialState (some "hi") .netError).2.status = 200 ∧
    (chatHandler initialState (some "hi") (.httpError 429)).2.status = 429 :=
  ⟨(chat_failure_status_policy initialState "hi" (by decide) .netError (by decide)).1,
   (chat_failure_status_policy initialState "hi" (by decide) .netError (by decide)).2.1,
   (chat_failure_status_policy initialState "hi" (by decide) (.httpError 429) (by decide)).2.1⟩

/-! ## C2: empty 2xx upstream responses -/

/-- C2 (counterexample): when the upstream 2xx response of `/asteroid-info`
contains no candidate text, the handler still answers `success:true` with the
`response` field absent — it does not fail with an EmptyResponse-style
degraded `success:false` payload as the claim states. -/
theorem asteroid_empty_success_counterexample :
    (asteroidInfoHandler initialState (some "Bennu") (.ok none)).2.success = some true ∧
    (asteroidInfoHandler initialState (some "Bennu") (.ok none)).2.responseText = none :=
  ⟨rfl, rfl⟩

/-- C2 (amended): on an upstream 2xx response with no truthy text, `/chat`
treats the outcome as a failure (degraded `success:false`, fallback text,
state unchanged), while `/asteroid-info` performs no emptiness check and
returns `success:true` with the extracted text passed through as-is. -/
theorem empty_upstream_text_handling (st : ServerState) (m : String) (hm : m ≠ "")
    (t : Option String) (ht : jsTruthy t = false) :
    ((chatHandler st (some m) (.ok t)).2.success = some false ∧
     (chatHandler st (some m) (.ok t)).2.status = 200 ∧
     (chatHandler st (some m) (.ok t)).2.responseText =
       some (chatFallbackResponse m) ∧
     (chatHandler st (some m) (.ok t)).1 = st) ∧
    ((asteroidInfoHandler st (some m) (.ok t)).2.success = some true ∧
     (asteroidInfoHandler st (some m) (.ok t)).2.responseText = t) := by
  have h1 : jsTruthy (some m) = true := (jsTruthy_some_iff m).mpr hm
  refine ⟨?_, ?_⟩
  · simp [chatHandler, h1, ht]
  · simp [asteroidInfoHandler, h1]

/-- Closed instantiation of `empty_upstream_text_handling` at an empty-string
candidate text. -/
theorem empty_upstream_text_handling_witness :
    (chatHandler initialState (some "hi") (.ok (some ""))).2.success = some false ∧
    (asteroidInfoHandler initialState (some "hi") (.ok (some ""))).2.success = some true :=
  ⟨(empty_upstream_text_handling initialState "hi" (by decide) (some "") (by decide)).1.1,
   (empty_upstream_text_handling initialState "hi" (by decide) (some "") (by decide)).2.1⟩

/-! ## C3: ActiveModel after /chat failures -/

/-- C3: after a `/chat` rate-limit failure (429) the state is unchanged;
after a model-not-found failure (404) `currentModel` becomes the first entry
of the fixed fallback list that differs from its pre-request value. -/
theorem chat_model_state_update (st : ServerState) (m : String) (hm : m ≠ "") :
    (chatHandler st (some m) (.httpError 429)).1 = st ∧
    ∃ next, chatFallbackModels.find? (fun x => x != st.currentModel) = some next ∧
      (chatHandler st (some m) (.httpError 404)).1.currentModel = next := by
  have h1 : jsTruthy (some m) = true := (jsTruthy_some_iff m).mpr hm
  refine ⟨by simp [chatHandler, h1], ?_⟩
  have hstate : (chatHandler st (some m) (.httpError 404)).1.currentModel =
      advanceModel st.currentModel := by
    simp [chatHandler, h1]
  by_cases hc : st.currentModel = "gemini-2.0-flash"
  · refine ⟨"gemini-pro-latest", ?_, ?_⟩
    · rw [hc]; rfl
    · rw [hstate, hc]; decide
  · have hb : (("gemini-2.0-flash" : String) != st.currentModel) = true := by
      simp only [bne_iff_ne, ne_eq]
      exact fun h => hc h.symm
    have hfind : chatFallbackModels.find? (fun x => x != st.currentModel) =
        some "gemini-2.0-flash" := by
      simp only [chatFallbackModels, List.find?, hb]
    refine ⟨"gemini-2.0-flash", hfind, ?_⟩
    rw [hstate]
    simp [advanceModel, hfind]

/-- Closed instantiation of `chat_model_state_update` at the initial state. -/
theorem chat_model_state_update_witness :
    (chatHandler initialState (some "hi") (.httpError 429)).1 = initialState ∧
    ∃ next, chatFallbackModels.find? (fun x => x != initialState.currentModel) = some next ∧
      (chatHandler initialState (some "hi") (.httpError 404)).1.currentModel = next :=
  chat_model_state_update initialState "hi" (by decide)

/-! ## C10: the model field of failed /chat replies -/

/-- C10: on a `/chat` model-not-found failure (404), the `model` field of the
degraded reply names the newly promoted fallback model (the post-advance
state), which differs from the model whose call failed; on every other
upstream failure the `model` field equals the unchanged `currentModel` and
the state is untouched. -/
theorem chat_model_field_reports (st : ServerState) (m : String) (hm : m ≠ "") :
    ((chatHandler st (some m) (.httpError 404)).2.model =
       some (chatHandler st (some m) (.httpError 404)).1.currentModel ∧
     (chatHandler st (some m) (.httpError 404)).1.currentModel ≠ st.currentModel) ∧
    (∀ up : UpstreamResult, hasNonEmptyText up = false → up ≠ .httpError 404 →
      (chatHandler st (some m) up).2.model = some st.currentModel ∧
      (chatHandler st (some m) up).1 = st) := by
  have h1 : jsTruthy (some m) = true := (jsTruthy_some_iff m).mpr hm
  constructor
  · constructor
    · simp [chatHandler, h1]
    · simpa [chatHandler, h1] using advanceModel_ne st.currentModel
  · intro up hup hne
    cases up with
    | ok t =>
      have ht : jsTruthy t = false := by simpa [hasNonEmptyText, extractText] using hup
      simp [chatHandler, h1, ht]
    | httpError s =>
      have hs : s ≠ 404 := fun h => hne (by rw [h])
      by_cases h429 : s = 429
      · subst h429; simp [chatHandler, h1]
      · simp [chatHandler, h1, h429, hs]
    | netError => simp [chatHandler, h1]

/-- Closed instantiation of `chat_model_field_reports`. -/
theorem chat_model_field_reports_witness :
    (chatHandler initialState (some "hi") (.httpError 404)).2.model =
      some (chatHandler initialState (some "hi") (.httpError 404)).1.currentModel ∧
    (chatHandler initialState (some "hi") .netError).2.model =
      some initialState.currentModel :=
  ⟨(chat_model_field_reports initialState "hi" (by decide)).1.1,
   ((chat_model_field_reports initialState "hi" (by decide)).2 .netError
      (by decide) (by decide)).1⟩

/-! ## C4: the currentModel invariant -/

lemma chatHandler_state (st : ServerState) (msg : Option String) (up : UpstreamResult) :
    (chatHandler st msg up).1 = st ∨
    (chatHandler st msg up).1.currentModel = advanceModel st.currentModel := by
  unfold chatHandler
  by_cases hmsg : jsTruthy msg = true
  · cases up with
    | ok t => by_cases ht : jsTruthy t = true <;> simp [hmsg, ht]
    | httpError s =>
      by_cases h429 : (s == 429) = true
      · simp [hmsg, h429]
      · by_cases h404 : (s == 404) = true <;> simp [hmsg, h429, h404]
    | netError => simp [hmsg]
  · simp [hmsg]

lemma asteroidInfoHandler_state (st : ServerState) (name : Option String)
    (up : UpstreamResult) : (asteroidInfoHandler st name up).1 = st := by
  unfold asteroidInfoHandler
  by_cases h : jsTruthy name = true <;> cases up <;> simp [h]

lemma testGeminiHandler_state (st : ServerState) (init : UpstreamResult)
    (fb : String → UpstreamResult) :
    (testGeminiHandler st init fb).1 = st ∨
    (testGeminiHandler st init fb).1.currentModel ∈ testFallbackModels := by
  unfold testGeminiHandler
  by_cases hi : hasNonEmptyText init = true
  · simp [hi]
  · cases hf : testFallbackModels.find? (fun m => hasNonEmptyText (fb m)) with
    | some m => exact Or.inr (by simpa [hi, hf] using List.mem_of_find?_eq_some hf)
    | none => simp [hi, hf]

lemma quickTestHandler_state (st : ServerState) (up : UpstreamResult) :
    (quickTestHandler st up).1 = st := by
  cases up <;> rfl

lemma step_preserves_known (a b : ServerState) (hstep : Step a b)
    (ha : a.currentModel ∈ knownModels) : b.currentModel ∈ knownModels := by
  cases hstep with
  | chat msg up =>
    rcases chatHandler_state a msg up with he | he
    · rw [he]; exact ha
    · rw [he]
      rcases advanceModel_mem a.currentModel with hm | hm
      · have sub : ∀ x ∈ chatFallbackModels, x ∈ knownModels := by decide
        exact sub _ hm
      · rw [hm]; exact ha
  | asteroidInfo name up => rw [asteroidInfoHandler_state a name up]; exact ha
  | testGemini init fb =>
    rcases testGeminiHandler_state a init fb with he | he
    · rw [he]; exact ha
    · have sub : ∀ x ∈ testFallbackModels, x ∈ knownModels := by decide
      exact sub _ he
  | quickTest up => rw [quickTestHandler_state a up]; exact ha

/-- C4: every state reachable from process start holds a `currentModel` that
is a non-empty identifier drawn from the fixed known set — it is initialized
to `gemini-2.5-flash` and every request either leaves it unchanged or
replaces it with another member of the set. -/
theorem currentModel_invariant (s : ServerState) (h : Reachable s) :
    s.currentModel ∈ knownModels ∧ s.currentModel ≠ "" := by
  have hmem : s.currentModel ∈ knownModels := by
    induction h with
    | refl => simp [initialState, knownModels]
    | tail hab hbc ih => exact step_preserves_known _ _ hbc ih
  refine ⟨hmem, ?_⟩
  have hne : ∀ x ∈ knownModels, x ≠ "" := by decide
  exact hne _ hmem

/-- Closed instantiation of `currentModel_invariant` at the initial state. -/
theorem currentModel_invariant_witness :
    initialState.currentModel ∈ knownModels ∧ initialState.currentModel ≠ "" :=
  currentModel_invariant initialState Relation.ReflTransGen.refl

/-! ## C5: /test-gemini fallback policy -/

/-- C5: `/test-gemini` answers 200/`success:true` keeping the state when the
initial call yields non-empty text; otherwise it promotes the first fallback
model whose probe yields non-empty text, answering 200/`success:true` with
that model; and it answers 500 if and only if the initial call and every
fallback probe fail to yield non-empty text, in which case the reply is
`success:false`, lists the tried models, and the state is unchanged. -/
theorem testGemini_fallback_policy (st : ServerState) (init : UpstreamResult)
    (fb : String → UpstreamResult) :
    (hasNonEmptyText init = true →
      (testGeminiHandler st init fb).1 = st ∧
      (testGeminiHandler st init fb).2.status = 200 ∧
      (testGeminiHandler st init fb).2.success = some true ∧
      (testGeminiHandler st init fb).2.model = some st.currentModel) ∧
    (∀ mdl, hasNonEmptyText init = false →
      testFallbackModels.find? (fun x => hasNonEmptyText (fb x)) = some mdl →
      (testGeminiHandler st init fb).1.currentModel = mdl ∧
      (testGeminiHandler st init fb).2.status = 200 ∧
      (testGeminiHandler st init fb).2.success = some true ∧
      (testGeminiHandler st init fb).2.model = some mdl ∧
      mdl ∈ testFallbackModels ∧ hasNonEmptyText (fb mdl) = true) ∧
    ((testGeminiHandler st init fb).2.status = 500 ↔
      hasNonEmptyText init = false ∧
        ∀ mdl ∈ testFallbackModels, hasNonEmptyText (fb mdl) = false) ∧
    ((testGeminiHandler st init fb).2.status = 500 →
      (testGeminiHandler st init fb).2.success = some false ∧
      (testGeminiHandler st init fb).2.triedModels = some testFallbackModels ∧
      (testGeminiHandler st init fb).1 = st) := by
  by_cases hi : hasNonEmptyText init = true
  · refine ⟨fun _ => by simp [testGeminiHandler, hi], ?_, ?_, ?_⟩
    · intro mdl hfalse _; rw [hi] at hfalse; cases hfalse
    · constructor
      · intro h500; simp [testGeminiHandler, hi] at h500
      · rintro ⟨hfalse, -⟩; rw [hi] at hfalse; cases hfalse
    · intro h500; simp [testGeminiHandler, hi] at h500
  · have hi' : hasNonEmptyText init = false := by
      cases hb : hasNonEmptyText init
      · rfl
      · exact absurd hb hi
    cases hf : testFallbackModels.find? (fun x => hasNonEmptyText (fb x)) with
    | some mdl0 =>
      refine ⟨fun h => absurd h hi, ?_, ?_, ?_⟩
      · intro mdl _ hsome
        injection hsome with he
        subst he
        refine ⟨?_, ?_, ?_, ?_, List.mem_of_find?_eq_some hf,
            by simpa using List.find?_some hf⟩ <;>
          simp [testGeminiHandler, hi', hf]
      · constructor
        · intro h500; simp [testGeminiHandler, hi', hf] at h500
        · rintro ⟨-, hall⟩
          have := hall mdl0 (List.mem_of_find?_eq_some hf)
          rw [List.find?_some hf] at this
          cases this
      · intro h500; simp [testGeminiHandler, hi', hf] at h500
    | none =>
      refine ⟨fun h => absurd h hi, ?_, ?_, ?_⟩
      · intro mdl _ hsome; cases hsome
      · constructor
        · intro _
          refine ⟨hi', fun mdl hmem => ?_⟩
          have := List.find?_eq_none.mp hf mdl hmem
          cases hb : hasNonEmptyText (fb mdl)
          · rfl
          · exact absurd hb this
        · intro _; simp [testGeminiHandler, hi', hf]
      · intro _
        refine ⟨?_, ?_, ?_⟩ <;> simp [testGeminiHandler, hi', hf]

/-- Closed instantiation of `testGemini_fallback_policy`: with every call
failing, the reply is the 500 listing the tried models. -/
theorem testGemini_fallback_policy_witness :
    (testGeminiHandler initialState .netError (fun _ => .netError)).2.status = 500 ∧
    (testGeminiHandler initialState .netError (fun _ => .netError)).2.triedModels =
      some testFallbackModels :=
  ⟨((testGemini_fallback_policy initialState .netError (fun _ => .netError)).2.2.1).mpr
     ⟨by decide, fun mdl _ => by decide⟩,
   ((testGemini_fallback_policy initialState .netError (fun _ => .netError)).2.2.2
     (by decide)).2.1⟩

/-! ## C6: deterministic fallback bucket selection in /chat -/

/-- C6: the `/chat` fallback text is a deterministic function of the user
message alone, equal to the spec-side priority-ordered bucket scan
(asteroid/neo, mars/planet, moon/lunar, star/galaxy, risk/danger, matched by
case-insensitive substring search, first matching bucket wins, generic
systems-operational text otherwise). -/
theorem chatFallback_matches_buckets (msg : String) :
    chatFallbackResponse msg = bucketFallback msg := by
  simp only [chatFallbackResponse, bucketFallback, fallbackBuckets, firstBucket,
    List.any_cons, List.any_nil, Bool.or_false]
  split_ifs <;> rfl

/-! ## C7: case-insensitive, trim-tolerant asteroid lookup -/

lemma asteroidInfo_fallback_text (st : ServerState) (name : String)
    (hname : jsTruthy (some name) = true) (up : UpstreamResult)
    (hup : upstreamOk up = false) :
    (asteroidInfoHandler st (some name) up).2.responseText =
      some (jsOrElse (asteroidDatabase.lookup (strTrim (strToLower name)))
        (underAnalysisText name)) := by
  cases up with
  | ok t => simp [upstreamOk] at hup
  | httpError s => simp [asteroidInfoHandler, hname]
  | netError => simp [asteroidInfoHandler, hname]

/-- C7: on a failed `/asteroid-info` call, the catalog lookup key is the
lowercased, trimmed input: every input equal to a stored key after
lowercasing and trimming resolves to that key's fact sheet, and an input
matching no stored key yields the under-analysis template, which embeds the
original, unmodified input as a substring. -/
theorem asteroid_lookup_caseInsensitive (st : ServerState) (name : String)
    (hname : name ≠ "") (up : UpstreamResult) (hup : upstreamOk up = false) :
    (asteroidInfoHandler st (some name) up).2.success = some false ∧
    (asteroidInfoHandler st (some name) up).2.asteroid = some name ∧
    (∀ key fact, (key, fact) ∈ asteroidDatabase → strTrim (strToLower name) = key →
      (asteroidInfoHandler st (some name) up).2.responseText = some fact) ∧
    ((∀ key ∈ asteroidDatabase.map Prod.fst, strTrim (strToLower name) ≠ key) →
      (asteroidInfoHandler st (some name) up).2.responseText =
        some (underAnalysisText name) ∧
      strContains (underAnalysisText name) name = true) := by
  have h1 : jsTruthy (some name) = true := (jsTruthy_some_iff name).mpr hname
  have htext := asteroidInfo_fallback_text st name h1 up hup
  refine ⟨?_, ?_, ?_, ?_⟩
  · cases up with
    | ok t => simp [upstreamOk] at hup
    | httpError s => simp [asteroidInfoHandler, h1]
    | netError => simp [asteroidInfoHandler, h1]
  · cases up with
    | ok t => simp [upstreamOk] at hup
    | httpError s => simp [asteroidInfoHandler, h1]
    | netError => simp [asteroidInfoHandler, h1]
  · intro key fact hmem heq
    rw [htext, heq]
    simp only [asteroidDatabase, List.mem_cons, List.not_mem_nil, or_false] at hmem
    rcases hmem with h | h | h | h | h <;>
      · rw [Prod.mk.injEq] at h
        rw [h.1, h.2]
        rfl
  · intro hmiss
    have e1 := hmiss "bennu" (by simp [asteroidDatabase])
    have e2 := hmiss "apophis" (by simp [asteroidDatabase])
    have e3 := hmiss "ceres" (by simp [asteroidDatabase])
    have e4 := hmiss "eros" (by simp [asteroidDatabase])
    have e5 := hmiss "itokawa" (by simp [asteroidDatabase])
    have b1 : (strTrim (strToLower name) == "bennu") = false := beq_eq_false_iff_ne.mpr e1
    have b2 : (strTrim (strToLower name) == "apophis") = false := beq_eq_false_iff_ne.mpr e2
    have b3 : (strTrim (strToLower name) == "ceres") = false := beq_eq_false_iff_ne.mpr e3
    have b4 : (strTrim (strToLower name) == "eros") = false := beq_eq_false_iff_ne.mpr e4
    have b5 : (strTrim (strToLower name) == "itokawa") = false := beq_eq_false_iff_ne.mpr e5
    have hlook : asteroidDatabase.lookup (strTrim (strToLower name)) = none := by
      simp [asteroidDatabase, List.lookup, b1, b2, b3, b4, b5]
    rw [htext, hlook]
    refine ⟨rfl, ?_⟩
    unfold underAnalysisText
    exact strContains_middle _ _ _

/-- Closed instantiation of `asteroid_lookup_caseInsensitive`: the inputs
`" BENNU "` and `"bennu"` resolve to the same fact sheet, and the unknown
name `"Vesta"` yields the template embedding it. -/
theorem asteroid_lookup_caseInsensitive_witness :
    (asteroidInfoHandler initialState (some " BENNU ") .netError).2.responseText =
      some bennuFact ∧
    (asteroidInfoHandler initialState (some "bennu") .netError).2.responseText =
      some bennuFact ∧
    (asteroidInfoHandler initialState (some "Vesta") .netError).2.responseText =
      some (underAnalysisText "Vesta") :=
  ⟨(asteroid_lookup_caseInsensitive initialState " BENNU " (by decide) .netError
      (by decide)).2.2.1 "bennu" bennuFact (by simp [asteroidDatabase]) (by decide),
   (asteroid_lookup_caseInsensitive initialState "bennu" (by decide) .netError
      (by decide)).2.2.1 "bennu" bennuFact (by simp [asteroidDatabase]) (by decide),
   ((asteroid_lookup_caseInsensitive initialState "Vesta" (by decide) .netError
      (by decide)).2.2.2 (by decide)).1⟩

/-! ## C8: model listing filter and order -/

lemma charsLe_total (as bs : List Char) :
    charsLe as bs = true ∨ charsLe bs as = true := by
  induction as generalizing bs with
  | nil => exact Or.inl rfl
  | cons a as ih =>
    cases bs with
    | nil => exact Or.inr rfl
    | cons b bs =>
      by_cases h : a.toNat = b.toNat
      · rcases ih bs with h1 | h1
        · exact Or.inl (by simp [charsLe, h, h1])
        · exact Or.inr (by simp [charsLe, h.symm, h1])
      · rcases Nat.lt_or_ge a.toNat b.toNat with hlt | hge
        · exact Or.inl (by simp [charsLe, h, hlt])
        · have h' : b.toNat ≠ a.toNat := fun he => h he.symm
          have hlt : b.toNat < a.toNat := lt_of_le_of_ne hge h'
          exact Or.inr (by simp [charsLe, h', hlt])

lemma charsLe_trans (as bs cs : List Char) (h1 : charsLe as bs = true)
    (h2 : charsLe bs cs = true) : charsLe as cs = true := by
  induction as generalizing bs cs with
  | nil => rfl
  | cons a as ih =>
    cases bs with
    | nil => simp [charsLe] at h1
    | cons b bs =>
      cases cs with
      | nil => simp [charsLe] at h2
      | cons c cs =>
        simp only [charsLe] at h1 h2 ⊢
        by_cases hab : a.toNat = b.toNat <;> by_cases hbc : b.toNat = c.toNat
        · rw [if_pos hab] at h1
          rw [if_pos hbc] at h2
          rw [if_pos (hab.trans hbc)]
          exact ih bs cs h1 h2
        · rw [if_pos hab] at h1
          rw [if_neg hbc] at h2
          have h2' : b.toNat < c.toNat := of_decide_eq_true h2
          have hac : a.toNat ≠ c.toNat := by omega
          rw [if_neg hac]
          exact decide_eq_true (by omega)
        · rw [if_neg hab] at h1
          have h1' : a.toNat < b.toNat := of_decide_eq_true h1
          have hac : a.toNat ≠ c.toNat := by omega
          rw [if_neg hac]
          exact decide_eq_true (by omega)
        · rw [if_neg hab] at h1
          rw [if_neg hbc] at h2
          have h1' : a.toNat < b.toNat := of_decide_eq_true h1
          have h2' : b.toNat < c.toNat := of_decide_eq_true h2
          have hac : a.toNat ≠ c.toNat := by omega
          rw [if_neg hac]
          exact decide_eq_true (by omega)

instance : IsTotal TextModel ModelRel := by
  constructor
  intro a b
  unfold ModelRel modelLe
  by_cases hf : strContains a.name "flash" = strContains b.name "flash"
  · rw [if_pos (beq_iff_eq.mpr hf), if_pos (beq_iff_eq.mpr hf.symm)]
    exact charsLe_total a.name.data b.name.data
  · have hba : strContains b.name "flash" ≠ strContains a.name "flash" :=
      fun he => hf he.symm
    rw [if_neg (by simpa using hf), if_neg (by simpa using hba)]
    cases ha : strContains a.name "flash" with
    | true => exact Or.inl rfl
    | false =>
      cases hb : strContains b.name "flash" with
      | true => exact Or.inr rfl
      | false => exact absurd (ha.trans hb.symm) hf

instance : IsTrans TextModel ModelRel := by
  constructor
  intro a b c h1 h2
  unfold ModelRel modelLe at h1 h2 ⊢
  by_cases hab : strContains a.name "flash" = strContains b.name "flash" <;>
    by_cases hbc : strContains b.name "flash" = strContains c.name "flash"
  · rw [if_pos (beq_iff_eq.mpr hab)] at h1
    rw [if_pos (beq_iff_eq.mpr hbc)] at h2
    rw [if_pos (beq_iff_eq.mpr (hab.trans hbc))]
    exact charsLe_trans _ _ _ h1 h2
  · rw [if_neg (by simpa using hbc)] at h2
    have hac : strContains a.name "flash" ≠ strContains c.name "flash" := by
      rw [hab]; exact hbc
    rw [if_neg (by simpa using hac)]
    rw [hab]; exact h2
  · rw [if_neg (by simpa using hab)] at h1
    have hac : strContains a.name "flash" ≠ strContains c.name "flash" := by
      rw [← hbc]; exact hab
    rw [if_neg (by simpa using hac)]
    exact h1
  · rw [if_neg (by simpa using hab)] at h1
    rw [if_neg (by simpa using hbc)] at h2
    exact absurd (h1.trans h2.symm) hab

lemma modelRel_imp (a b : TextModel) (h : ModelRel a b) :
    (strContains b.name "flash" = true → strContains a.name "flash" = true) ∧
    (strContains a.name "flash" = strContains b.name "flash" →
      strLe a.name b.name = true) := by
  unfold ModelRel modelLe at h
  by_cases hf : strContains a.name "flash" = strContains b.name "flash"
  · rw [if_pos (beq_iff_eq.mpr hf)] at h
    exact ⟨fun hbf => hf.trans hbf, fun _ => h⟩
  · rw [if_neg (by simpa using hf)] at h
    exact ⟨fun _ => h, fun heq => absurd heq hf⟩

/-- C8: the `GET /models` listing contains exactly the upstream models
passing the source's filter (a truthy name, `generateContent` among the
supported methods, and none of the excluded substrings `embedding`,
`imagen`, `veo`, `audio`, `tts` in the name), each mapped to its stripped
identifier; and it is ordered so that every id containing `flash` precedes
every id not containing `flash`, with equal flash-status ids in
lexicographic order. -/
theorem models_listing_filter_sort (ms : List ModelDescriptor) :
    (∀ t, t ∈ modelsHandler ms ↔
      ∃ m, m ∈ ms ∧ textModelFilter m = true ∧ mkTextModel m = t) ∧
    (modelsHandler ms).Pairwise (fun a b =>
      (strContains b.name "flash" = true → strContains a.name "flash" = true) ∧
      (strContains a.name "flash" = strContains b.name "flash" →
        strLe a.name b.name = true)) := by
  constructor
  · intro t
    unfold modelsHandler
    rw [(List.perm_insertionSort ModelRel _).mem_iff, List.mem_map]
    constructor
    · rintro ⟨m, hm, rfl⟩
      exact ⟨m, (List.mem_filter.mp hm).1, (List.mem_filter.mp hm).2, rfl⟩
    · rintro ⟨m, hmem, hfil, rfl⟩
      exact ⟨m, List.mem_filter.mpr ⟨hmem, hfil⟩, rfl⟩
  · have hs := List.sorted_insertionSort ModelRel
      ((ms.filter textModelFilter).map mkTextModel)
    exact List.Pairwise.imp (fun h => modelRel_imp _ _ h) hs

end AsterBlast
